import Mathlib

/-!
Shallow embedding of the traffic-signal controller in `src/script.js`
(VahanMitra frontend).  The mutable `state` object becomes the `State`
structure; each source function becomes a pure `State → State` function.
DOM writes and log lines are dropped (display-only); the single observable
side effect that the claims need — `socket.emit('request_snapshot', …)` —
is modelled by appending the requested direction to the instrumentation
field `State.emitted`.  The two `setTimeout` continuations spawned by
`resetSystem` are modelled by the `resetStage` field together with the
events `Event.resetTimer1` / `Event.resetTimer2` (a single outstanding
reset chain, which is all the claims exercise).

Timestamps and durations are `Int` milliseconds, mirroring JavaScript
number arithmetic on the integer values that actually occur; vehicle
counts are `Nat`.
-/

/-- The four approaches (`CONFIG.CYCLE_ORDER` members).  An invalid string
passed to `emergencyOverride` is rejected by the source with no state
change; the embedding expresses that by typing directions. -/
inductive Direction where
  | north
  | south
  | east
  | west
  deriving DecidableEq, Repr

/-- A signal head colour as stored in `state.currentLights`. -/
inductive Color where
  | red
  | yellow
  | green
  deriving DecidableEq, Repr

/-- `state.phase`: "initializing", "green", "yellow" or "red" (all-red). -/
inductive Phase where
  | initializing
  | green
  | yellow
  | red
  deriving DecidableEq, Repr

/-- `state.realCarCounts`. -/
structure Counts where
  north : Nat
  south : Nat
  east : Nat
  west : Nat
  deriving DecidableEq, Repr

/-- `state.currentLights`. -/
structure Lights where
  north : Color
  south : Color
  east : Color
  west : Color
  deriving DecidableEq, Repr

def getCount (c : Counts) (d : Direction) : Nat :=
  match d with
  | .north => c.north
  | .south => c.south
  | .east => c.east
  | .west => c.west

def setCount (c : Counts) (d : Direction) (v : Nat) : Counts :=
  match d with
  | .north => { c with north := v }
  | .south => { c with south := v }
  | .east => { c with east := v }
  | .west => { c with west := v }

def getLight (l : Lights) (d : Direction) : Color :=
  match d with
  | .north => l.north
  | .south => l.south
  | .east => l.east
  | .west => l.west

-- CONFIG (script.js lines 10-20); socket/UI entries are out of scope.
def YELLOW_TIME : Int := 3000
def ALL_RED_TIME : Int := 2000
def CYCLE_ORDER : List Direction := [.north, .east, .south, .west]
def SNAPSHOT_BEFORE_END : Int := 3000
def EMERGENCY_GREEN_TIME : Int := 30000
def DEFAULT_FIRST_GREEN : Int := 15000

/-- The mutable `state` object (script.js lines 25-42), plus the two model
fields `emitted` (log of outbound `request_snapshot` directions) and
`resetStage` (pending `setTimeout` stages of `resetSystem`). -/
structure State where
  realCarCounts : Counts
  currentLights : Lights
  phase : Phase
  currentCycleIndex : Int
  cycleStartTime : Int
  phaseDuration : Int
  cycleCount : Nat
  startTime : Int
  emergencyMode : Bool
  emergencyDirection : Option Direction
  totalCyclesCompleted : Nat
  snapshotTaken : Bool
  nextDirectionCount : Nat
  nextDirectionGreenTime : Int
  waitingForSnapshot : Bool
  isFirstCycle : Bool
  emitted : List Direction
  resetStage : Nat
  deriving DecidableEq, Repr

/-- The initial value of `state` (script.js lines 25-42), at clock `t0`. -/
def initialState (t0 : Int) : State :=
  { realCarCounts := ⟨0, 0, 0, 0⟩
    currentLights := ⟨.red, .red, .red, .red⟩
    phase := .initializing
    currentCycleIndex := -1
    cycleStartTime := t0
    phaseDuration := 0
    cycleCount := 0
    startTime := t0
    emergencyMode := false
    emergencyDirection := none
    totalCyclesCompleted := 0
    snapshotTaken := false
    nextDirectionCount := 0
    nextDirectionGreenTime := 0
    waitingForSnapshot := false
    isFirstCycle := true
    emitted := []
    resetStage := 0 }

/-- `CONFIG.CYCLE_ORDER[i]`.  Source call sites only index with values in
`[0, 3]` (`getActiveDirections` special-cases `-1`, and
`getNextDirection` reduces modulo the length first), where
`Int.toNat` + positional lookup agrees with the JavaScript indexing. -/
def cycleOrderAt (i : Int) : Direction :=
  match i.toNat % 4 with
  | 0 => .north
  | 1 => .east
  | 2 => .south
  | _ => .west

/-- `calculateSmartTime` (script.js lines 244-255). -/
def calculateSmartTime (carCount : Nat) : Int :=
  let STARTUP_TIME : Int := 5000
  let TIME_PER_CAR : Int := 3000
  let time := STARTUP_TIME + (carCount : Int) * TIME_PER_CAR
  let time := if time < 10000 then 10000 else time
  let time := if time > 60000 then 60000 else time
  time

/-- `getActiveDirections` (script.js lines 297-305).  The source guard is
`state.emergencyMode && state.emergencyDirection`, so a `null`
(`none`) emergency direction falls through to the rotation branch. -/
def getActiveDirections (s : State) : List Direction :=
  match s.emergencyDirection with
  | some d =>
      if s.emergencyMode then [d]
      else if s.currentCycleIndex = -1 then [.north]
      else [cycleOrderAt s.currentCycleIndex]
  | none =>
      if s.currentCycleIndex = -1 then [.north]
      else [cycleOrderAt s.currentCycleIndex]

/-- `getNextDirection` (script.js lines 307-310). -/
def getNextDirection (s : State) : Direction :=
  cycleOrderAt ((s.currentCycleIndex + 1) % 4)

/-- `requestSnapshotForNextDirection` (script.js lines 312-323): a silent
no-op while `waitingForSnapshot` is set; otherwise marks the request
pending and emits `request_snapshot` for the next rotation direction. -/
def requestSnapshotForNextDirection (s : State) : State :=
  if s.waitingForSnapshot then s
  else
    let nextDir := getNextDirection s
    { s with waitingForSnapshot := true, emitted := s.emitted ++ [nextDir] }

/-- `setLight` (script.js lines 169-193), restricted to its one state
mutation `state.currentLights[direction] = color`. -/
def setLight (l : Lights) (d : Direction) (color : Color) : Lights :=
  match d with
  | .north => { l with north := color }
  | .south => { l with south := color }
  | .east => { l with east := color }
  | .west => { l with west := color }

def setLights (l : Lights) (ds : List Direction) (color : Color) : Lights :=
  ds.foldl (fun acc d => setLight acc d color) l

/-- `updateLights` (script.js lines 373-397).  The `initializing` phase
matches no branch and leaves the lights unchanged. -/
def updateLights (s : State) : State :=
  let active := getActiveDirections s
  let allDirs : List Direction := [.north, .south, .east, .west]
  let inactive := allDirs.filter (fun d => ¬ active.contains d)
  match s.phase with
  | .green =>
      { s with currentLights := setLights (setLights s.currentLights active .green) inactive .red }
  | .yellow =>
      { s with currentLights := setLights (setLights s.currentLights active .yellow) inactive .red }
  | .red =>
      { s with currentLights := setLights s.currentLights allDirs .red }
  | .initializing => s

/-- `switchCycle` (script.js lines 325-371).  The local `carCount` of the
source feeds only log lines and is dropped.  `state.nextDirectionGreenTime
|| calculateSmartTime(carCount)` becomes the `= 0` test (the only falsy
value this field takes). -/
def switchCycle (now : Int) (s : State) : State :=
  let idx := (s.currentCycleIndex + 1) % 4
  let s := { s with currentCycleIndex := idx }
  let s := if idx = 0 then { s with totalCyclesCompleted := s.totalCyclesCompleted + 1 } else s
  let s := { s with phase := .green, snapshotTaken := false }
  let s :=
    if s.isFirstCycle then
      { s with phaseDuration := DEFAULT_FIRST_GREEN, isFirstCycle := false }
    else if s.emergencyMode then
      { s with phaseDuration := EMERGENCY_GREEN_TIME }
    else
      { s with phaseDuration :=
          if s.nextDirectionGreenTime = 0 then calculateSmartTime s.nextDirectionCount
          else s.nextDirectionGreenTime }
  updateLights { s with cycleStartTime := now }

/-- One invocation of `mainLoop` (script.js lines 402-444) at clock `now`,
without the self-rescheduling and the countdown/uptime display writes. -/
def mainLoop (now : Int) (s : State) : State :=
  let elapsed := now - s.cycleStartTime
  let s :=
    if s.phase = .green ∧ s.snapshotTaken = false ∧ s.emergencyMode = false then
      let timeUntilEnd := s.phaseDuration - elapsed
      if timeUntilEnd ≤ SNAPSHOT_BEFORE_END ∧ 0 < timeUntilEnd then
        requestSnapshotForNextDirection { s with snapshotTaken := true }
      else s
    else s
  if s.phase = .green ∧ s.phaseDuration ≤ elapsed then
    updateLights { s with phase := .yellow, phaseDuration := YELLOW_TIME, cycleStartTime := now }
  else if s.phase = .yellow ∧ s.phaseDuration ≤ elapsed then
    updateLights { s with phase := .red, phaseDuration := ALL_RED_TIME, cycleStartTime := now }
  else if s.phase = .red ∧ s.phaseDuration ≤ elapsed then
    switchCycle now
      (if s.emergencyMode then { s with emergencyMode := false, emergencyDirection := none } else s)
  else s

/-- The `snapshot_result` socket handler (script.js lines 99-115).
`data.green_time_ms || calculateSmartTime(count)` becomes the `= 0` /
`none` test: absent and zero values both fall back. -/
def onSnapshotResult (direction : Direction) (count : Nat) (green_time_ms : Option Int)
    (s : State) : State :=
  let greenTimeMs : Int :=
    match green_time_ms with
    | some g => if g = 0 then calculateSmartTime count else g
    | none => calculateSmartTime count
  { s with
    realCarCounts := setCount s.realCarCounts direction count
    nextDirectionCount := count
    nextDirectionGreenTime := greenTimeMs
    waitingForSnapshot := false }

/-- The `traffic_update` socket handler (script.js lines 85-97). -/
def onTrafficUpdate (n so e w : Nat) (s : State) : State :=
  { s with realCarCounts := ⟨n, so, e, w⟩ }

/-- `emergencyOverride` (script.js lines 503-518), for a valid direction
(invalid strings are rejected by the source with no state change). -/
def emergencyOverride (now : Int) (direction : Direction) (s : State) : State :=
  updateLights
    { s with
      emergencyMode := true
      emergencyDirection := some direction
      phase := .yellow
      phaseDuration := YELLOW_TIME
      cycleStartTime := now }

/-- The synchronous body of `resetSystem` (script.js lines 520-540) after
the confirmation dialog; the two deferred `setTimeout` continuations are
armed through `resetStage` and fired by `Event.resetTimer1` /
`Event.resetTimer2`. -/
def resetSystem (s : State) : State :=
  { s with
    emergencyMode := false
    emergencyDirection := none
    totalCyclesCompleted := 0
    currentCycleIndex := -1
    cycleCount := 0
    snapshotTaken := false
    isFirstCycle := true
    resetStage := 1 }

/-- The body of the first `setTimeout` in `initialize` (script.js lines
561-568): sets phase `initializing`, emits the initial north snapshot
request and marks it pending. -/
def initStep1 (s : State) : State :=
  { s with
    phase := .initializing
    emitted := s.emitted ++ [.north]
    waitingForSnapshot := true }

/-- The body of the nested `setTimeout` in `initialize` (script.js lines
571-581): seeds the next-direction values if still zero, then runs the
first `switchCycle` at clock `now`. -/
def initStep2 (now : Int) (s : State) : State :=
  let s :=
    if s.nextDirectionCount = 0 then { s with nextDirectionCount := s.realCarCounts.north } else s
  let s :=
    if s.nextDirectionGreenTime = 0 then { s with nextDirectionGreenTime := DEFAULT_FIRST_GREEN }
    else s
  switchCycle now s

/-- The state right after startup: `initialize`'s two timeouts have fired
(at clocks `t0` and `t2`) and the first green (north, default 15 s) is
active with the initial north snapshot request still pending. -/
def startupState (t0 t2 : Int) : State :=
  initStep2 t2 (initStep1 (initialState t0))

/-- The serialized event alphabet of the running page: animation-frame
ticks, socket deliveries, the two control surfaces, and the deferred
stages of a reset. -/
inductive Event where
  | tick (now : Int)
  | snapshotResult (d : Direction) (count : Nat) (green : Option Int)
  | trafficUpdate (n so e w : Nat)
  | emergency (now : Int) (d : Direction)
  | reset
  | resetTimer1
  | resetTimer2 (now : Int)
  deriving DecidableEq, Repr

def step (ev : Event) (s : State) : State :=
  match ev with
  | .tick now => mainLoop now s
  | .snapshotResult d c g => onSnapshotResult d c g s
  | .trafficUpdate n so e w => onTrafficUpdate n so e w s
  | .emergency now d => emergencyOverride now d s
  | .reset => resetSystem s
  | .resetTimer1 =>
      if s.resetStage = 1 then { requestSnapshotForNextDirection s with resetStage := 2 } else s
  | .resetTimer2 now =>
      if s.resetStage = 2 then { switchCycle now s with resetStage := 0 } else s

/-- States the running system can be in: the freshly booted state, and
anything an event takes a reachable state to. -/
inductive Reachable : State → Prop where
  | boot (t0 t2 : Int) : Reachable (startupState t0 t2)
  | next (e : Event) {s : State} : Reachable s → Reachable (step e s)

/-! ### Helper lemmas: field-preservation facts about each operation -/

theorem calculateSmartTime_eq (c : Nat) :
    calculateSmartTime c = min 60000 (max 10000 (5000 + (c : Int) * 3000)) := by
  unfold calculateSmartTime
  dsimp only
  split_ifs <;> omega

@[simp] theorem updateLights_phase (s : State) : (updateLights s).phase = s.phase := by
  unfold updateLights; dsimp only; split <;> rfl

@[simp] theorem updateLights_emitted (s : State) : (updateLights s).emitted = s.emitted := by
  unfold updateLights; dsimp only; split <;> rfl

@[simp] theorem updateLights_snapshotTaken (s : State) :
    (updateLights s).snapshotTaken = s.snapshotTaken := by
  unfold updateLights; dsimp only; split <;> rfl

@[simp] theorem updateLights_emergencyMode (s : State) :
    (updateLights s).emergencyMode = s.emergencyMode := by
  unfold updateLights; dsimp only; split <;> rfl

@[simp] theorem updateLights_emergencyDirection (s : State) :
    (updateLights s).emergencyDirection = s.emergencyDirection := by
  unfold updateLights; dsimp only; split <;> rfl

@[simp] theorem updateLights_waitingForSnapshot (s : State) :
    (updateLights s).waitingForSnapshot = s.waitingForSnapshot := by
  unfold updateLights; dsimp only; split <;> rfl

@[simp] theorem updateLights_currentCycleIndex (s : State) :
    (updateLights s).currentCycleIndex = s.currentCycleIndex := by
  unfold updateLights; dsimp only; split <;> rfl

@[simp] theorem updateLights_totalCyclesCompleted (s : State) :
    (updateLights s).totalCyclesCompleted = s.totalCyclesCompleted := by
  unfold updateLights; dsimp only; split <;> rfl

@[simp] theorem updateLights_phaseDuration (s : State) :
    (updateLights s).phaseDuration = s.phaseDuration := by
  unfold updateLights; dsimp only; split <;> rfl

@[simp] theorem updateLights_cycleStartTime (s : State) :
    (updateLights s).cycleStartTime = s.cycleStartTime := by
  unfold updateLights; dsimp only; split <;> rfl

@[simp] theorem updateLights_isFirstCycle (s : State) :
    (updateLights s).isFirstCycle = s.isFirstCycle := by
  unfold updateLights; dsimp only; split <;> rfl

@[simp] theorem updateLights_nextDirectionGreenTime (s : State) :
    (updateLights s).nextDirectionGreenTime = s.nextDirectionGreenTime := by
  unfold updateLights; dsimp only; split <;> rfl

@[simp] theorem updateLights_nextDirectionCount (s : State) :
    (updateLights s).nextDirectionCount = s.nextDirectionCount := by
  unfold updateLights; dsimp only; split <;> rfl

@[simp] theorem updateLights_realCarCounts (s : State) :
    (updateLights s).realCarCounts = s.realCarCounts := by
  unfold updateLights; dsimp only; split <;> rfl

@[simp] theorem request_phase (s : State) :
    (requestSnapshotForNextDirection s).phase = s.phase := by
  unfold requestSnapshotForNextDirection; split <;> rfl

@[simp] theorem request_emergencyMode (s : State) :
    (requestSnapshotForNextDirection s).emergencyMode = s.emergencyMode := by
  unfold requestSnapshotForNextDirection; split <;> rfl

@[simp] theorem request_currentCycleIndex (s : State) :
    (requestSnapshotForNextDirection s).currentCycleIndex = s.currentCycleIndex := by
  unfold requestSnapshotForNextDirection; split <;> rfl

@[simp] theorem request_snapshotTaken (s : State) :
    (requestSnapshotForNextDirection s).snapshotTaken = s.snapshotTaken := by
  unfold requestSnapshotForNextDirection; split <;> rfl

@[simp] theorem request_phaseDuration (s : State) :
    (requestSnapshotForNextDirection s).phaseDuration = s.phaseDuration := by
  unfold requestSnapshotForNextDirection; split <;> rfl

@[simp] theorem request_cycleStartTime (s : State) :
    (requestSnapshotForNextDirection s).cycleStartTime = s.cycleStartTime := by
  unfold requestSnapshotForNextDirection; split <;> rfl

theorem switchCycle_phase (now : Int) (s : State) : (switchCycle now s).phase = Phase.green := by
  unfold switchCycle; dsimp only; split_ifs <;> simp

theorem switchCycle_emitted (now : Int) (s : State) : (switchCycle now s).emitted = s.emitted := by
  unfold switchCycle; dsimp only; split_ifs <;> simp

theorem switchCycle_currentCycleIndex (now : Int) (s : State) :
    (switchCycle now s).currentCycleIndex = (s.currentCycleIndex + 1) % 4 := by
  unfold switchCycle; dsimp only; split_ifs <;> simp

theorem switchCycle_totalCyclesCompleted (now : Int) (s : State) :
    (switchCycle now s).totalCyclesCompleted =
      (if (s.currentCycleIndex + 1) % 4 = 0 then s.totalCyclesCompleted + 1
       else s.totalCyclesCompleted) := by
  unfold switchCycle; dsimp only; split_ifs <;> simp_all

theorem switchCycle_emergencyMode (now : Int) (s : State) :
    (switchCycle now s).emergencyMode = s.emergencyMode := by
  unfold switchCycle; dsimp only; split_ifs <;> simp

theorem switchCycle_emergencyDirection (now : Int) (s : State) :
    (switchCycle now s).emergencyDirection = s.emergencyDirection := by
  unfold switchCycle; dsimp only; split_ifs <;> simp

theorem switchCycle_waitingForSnapshot (now : Int) (s : State) :
    (switchCycle now s).waitingForSnapshot = s.waitingForSnapshot := by
  unfold switchCycle; dsimp only; split_ifs <;> simp

theorem switchCycle_snapshotTaken (now : Int) (s : State) :
    (switchCycle now s).snapshotTaken = false := by
  unfold switchCycle; dsimp only; split_ifs <;> simp

/-- A tick changes the phase only along the source's transition chain:
it either leaves it alone or performs exactly one of
green→yellow, yellow→allRed, allRed→green. -/
theorem mainLoop_phase (now : Int) (s : State) :
    (mainLoop now s).phase = s.phase ∨
      (s.phase = Phase.green ∧ (mainLoop now s).phase = Phase.yellow) ∨
      (s.phase = Phase.yellow ∧ (mainLoop now s).phase = Phase.red) ∨
      (s.phase = Phase.red ∧ (mainLoop now s).phase = Phase.green) := by
  unfold mainLoop
  dsimp only
  split_ifs with h1 h2 h3 h4 h5 <;>
    simp_all [switchCycle_phase]

/-- A tick never emits once the per-phase latch `snapshotTaken` is set. -/
theorem mainLoop_emitted_of_taken (now : Int) (s : State) (h : s.snapshotTaken = true) :
    (mainLoop now s).emitted = s.emitted := by
  unfold mainLoop
  dsimp only
  split_ifs with h1 h2 h3 h4 h5 <;>
    simp_all [switchCycle_emitted]

/-- A tick emits at most one snapshot request, and only for the next
rotation direction. -/
theorem mainLoop_emitted_cases (now : Int) (s : State) :
    (mainLoop now s).emitted = s.emitted ∨
      (mainLoop now s).emitted = s.emitted ++ [getNextDirection s] := by
  unfold mainLoop requestSnapshotForNextDirection
  dsimp only
  split_ifs with h1 h2 h3 h4 h5 <;>
    simp_all [switchCycle_emitted, getNextDirection]

/-! ### C7 — timing policy -/

/-- Claim C7 (confirmed): for every non-negative integer vehicle count `c`,
`calculateSmartTime c` equals `5000 + c·3000` clamped to
`[10000, 60000]`; in particular it maps 0 to 10000, 5 to 20000 and 25 to
60000, and the result always lies between the floor 10000 (MIN) and the
ceiling 60000 (MAX). -/
theorem C7_timing_policy :
    (∀ c : Nat, calculateSmartTime c = min 60000 (max 10000 (5000 + (c : Int) * 3000))) ∧
    (∀ c : Nat, 10000 ≤ calculateSmartTime c ∧ calculateSmartTime c ≤ 60000) ∧
    calculateSmartTime 0 = 10000 ∧ calculateSmartTime 5 = 20000 ∧
    calculateSmartTime 25 = 60000 := by
  refine ⟨fun c => calculateSmartTime_eq c, fun c => ?_, by decide, by decide, by decide⟩
  rw [calculateSmartTime_eq c]
  constructor <;> [skip; exact min_le_left _ _]
  have h : (10000 : Int) ≤ max 10000 (5000 + (c : Int) * 3000) := le_max_left _ _
  have h2 : (0 : Int) ≤ (c : Int) * 3000 := by positivity
  omega

/-! ### C10 — frame of the synchronous reset body -/

/-- Claim C10 (confirmed): at the moment the synchronous body of
`resetSystem` returns, the vehicle-count table, the lights, the phase,
the phase duration and the phase clock are unchanged (as are the
next-direction snapshot values and the pending flag); it mutates exactly
the emergency flags, the cycle counters, the rotation index, the
snapshot latch and the first-cycle flag, so counts survive a reset and
the running phase continues until the deferred `switchCycle` fires. -/
theorem C10_reset_frame (s : State) :
    (resetSystem s).realCarCounts = s.realCarCounts ∧
    (resetSystem s).currentLights = s.currentLights ∧
    (resetSystem s).phase = s.phase ∧
    (resetSystem s).phaseDuration = s.phaseDuration ∧
    (resetSystem s).cycleStartTime = s.cycleStartTime ∧
    (resetSystem s).startTime = s.startTime ∧
    (resetSystem s).waitingForSnapshot = s.waitingForSnapshot ∧
    (resetSystem s).nextDirectionCount = s.nextDirectionCount ∧
    (resetSystem s).nextDirectionGreenTime = s.nextDirectionGreenTime ∧
    (resetSystem s).emitted = s.emitted ∧
    (resetSystem s).emergencyMode = false ∧
    (resetSystem s).emergencyDirection = none ∧
    (resetSystem s).totalCyclesCompleted = 0 ∧
    (resetSystem s).cycleCount = 0 ∧
    (resetSystem s).currentCycleIndex = -1 ∧
    (resetSystem s).snapshotTaken = false ∧
    (resetSystem s).isFirstCycle = true := by
  refine ⟨rfl, rfl, rfl, rfl, rfl, rfl, rfl, rfl, rfl, rfl, rfl, rfl, rfl, rfl, rfl, rfl, rfl⟩

/-! ### C9 — rotation order and the completed-cycle counter -/

/-- Claim C9 (confirmed): the rotation order is exactly
`[north, east, south, west]` repeating — `switchCycle` advances the
index by one modulo four and (outside emergency mode) makes exactly the
approach at the new index active — and `totalCyclesCompleted`
increments precisely when the new index is 0, and never as a result of
`emergencyOverride`. -/
theorem C9_rotation_counter :
    CYCLE_ORDER = [Direction.north, Direction.east, Direction.south, Direction.west] ∧
    (∀ s now, (switchCycle now s).currentCycleIndex = (s.currentCycleIndex + 1) % 4) ∧
    (∀ s now, (switchCycle now s).totalCyclesCompleted =
      (if (s.currentCycleIndex + 1) % 4 = 0 then s.totalCyclesCompleted + 1
       else s.totalCyclesCompleted)) ∧
    (∀ s now, s.emergencyMode = false →
      getActiveDirections (switchCycle now s) = [cycleOrderAt ((s.currentCycleIndex + 1) % 4)]) ∧
    (∀ s now d, (emergencyOverride now d s).totalCyclesCompleted = s.totalCyclesCompleted ∧
      (emergencyOverride now d s).currentCycleIndex = s.currentCycleIndex) := by
  refine ⟨rfl, fun s now => switchCycle_currentCycleIndex now s,
    fun s now => switchCycle_totalCyclesCompleted now s, fun s now h => ?_,
    fun s now d => ⟨by simp [emergencyOverride], by simp [emergencyOverride]⟩⟩
  have hidx := switchCycle_currentCycleIndex now s
  have hem := switchCycle_emergencyMode now s
  have hed := switchCycle_emergencyDirection now s
  have hne : (s.currentCycleIndex + 1) % 4 ≠ -1 := by omega
  unfold getActiveDirections
  rw [hed]
  cases s.emergencyDirection <;> simp [hem, h, hidx, hne]

/-- Concrete instantiation of the guarded part of `C9_rotation_counter`:
right after startup (index 0, no emergency), the next activation makes
east — rotation position 1 — the unique active approach. -/
theorem C9_rotation_counter_witness :
    getActiveDirections (switchCycle 20000 (startupState 0 1000)) =
      [cycleOrderAt (((startupState 0 1000).currentCycleIndex + 1) % 4)] :=
  C9_rotation_counter.2.2.2.1 (startupState 0 1000) 20000 (by decide)

/-! ### C5 — phase adjacencies -/

/-- The adjacency set the claim asserts: a step leaves the phase alone or
follows the cycle green → yellow → allRed → green (the start from
`initializing` aside). -/
def claimC5Adj (p q : Phase) : Prop :=
  q = p ∨ (p = .green ∧ q = .yellow) ∨ (p = .yellow ∧ q = .red) ∨
  (p = .red ∧ q = .green) ∨ p = .initializing

instance claimC5AdjDec (p q : Phase) : Decidable (claimC5Adj p q) := by
  unfold claimC5Adj; infer_instance

/-- The adjacencies the code actually produces: the tick-driven cycle,
plus yellow-from-anywhere on emergency activation and green-from-anywhere
on the deferred cycle switch of a reset. -/
def stepAdjOK (p q : Phase) : Prop :=
  q = p ∨
  (p = .green ∧ q = .yellow) ∨ (p = .yellow ∧ q = .red) ∨ (p = .red ∧ q = .green) ∨
  (p = .red ∧ q = .yellow) ∨ (p = .yellow ∧ q = .green) ∨
  (p = .initializing ∧ q = .green) ∨ (p = .initializing ∧ q = .yellow)

/-- Claim C5 (counterexample): in the reachable state two ticks after
startup the phase is allRed, and `emergencyOverride(north)` there moves
it straight to yellow — an allRed → yellow adjacency outside the claimed
cycle. -/
theorem C5_counterexample :
    Reachable (step (.tick 19000) (step (.tick 16000) (startupState 0 1000))) ∧
    (step (.tick 19000) (step (.tick 16000) (startupState 0 1000))).phase = Phase.red ∧
    (step (.emergency 19500 .north)
        (step (.tick 19000) (step (.tick 16000) (startupState 0 1000)))).phase = Phase.yellow ∧
    ¬ claimC5Adj Phase.red Phase.yellow := by
  refine ⟨?_, by decide, by decide, by decide⟩
  exact .next (.tick 19000) (.next (.tick 16000) (.boot 0 1000))

/-- Claim C5 (amended): tick-driven transitions follow exactly the cycle
green → yellow → allRed → green, but an emergency activation sets the
phase to yellow from any phase (in particular allRed → yellow), and the
deferred cycle switch of a reset sets it to green from any phase; no
adjacency outside `stepAdjOK` ever occurs, for any event at any state. -/
theorem C5_phase_adjacency (s : State) (e : Event) : stepAdjOK s.phase ((step e s).phase) := by
  cases e with
  | tick now =>
      rcases mainLoop_phase now s with h | ⟨h1, h2⟩ | ⟨h1, h2⟩ | ⟨h1, h2⟩
      · exact Or.inl h
      · exact Or.inr (Or.inl ⟨h1, h2⟩)
      · exact Or.inr (Or.inr (Or.inl ⟨h1, h2⟩))
      · exact Or.inr (Or.inr (Or.inr (Or.inl ⟨h1, h2⟩)))
  | snapshotResult d c g => exact Or.inl rfl
  | trafficUpdate n so e w => exact Or.inl rfl
  | emergency now d =>
      have h : (step (.emergency now d) s).phase = Phase.yellow := by
        simp [step, emergencyOverride]
      rw [h]
      cases hp : s.phase <;> simp [stepAdjOK]
  | reset => exact Or.inl rfl
  | resetTimer1 =>
      dsimp only [step]
      split
      · exact Or.inl (request_phase s)
      · exact Or.inl rfl
  | resetTimer2 now =>
      dsimp only [step]
      split
      · show stepAdjOK s.phase (switchCycle now s).phase
        rw [switchCycle_phase]
        cases hp : s.phase <;> simp [stepAdjOK]
      · exact Or.inl rfl

/-- Concrete instantiation of `C5_phase_adjacency` at the startup state
and a tick that ends the first green. -/
theorem C5_phase_adjacency_witness :
    stepAdjOK (startupState 0 1000).phase ((step (.tick 16000) (startupState 0 1000)).phase) :=
  C5_phase_adjacency (startupState 0 1000) (.tick 16000)

/-! ### C1 — emergency preemption -/

/-- Claim C1 (code bug, evaluated): `emergencyOverride(south)` during the
first (north) green routes through yellow and allRed, and emergency mode
is cleared at the allRed → green transition — but because `mainLoop`
clears `emergencyMode` *before* calling `switchCycle`, the emergency
branch of `switchCycle` (script.js line 347) is unreachable there: the
approach that turns green is the next rotation approach (east), its
duration is the ordinary 15000 ms rather than
`EMERGENCY_GREEN_TIME = 30000`, and south never shows green. -/
theorem C1_emergency_never_green :
    (step (.emergency 5000 .south) (startupState 0 1000)).phase = Phase.yellow ∧
    (step (.emergency 5000 .south) (startupState 0 1000)).emergencyDirection =
      some Direction.south ∧
    (step (.tick 8000) (step (.emergency 5000 .south) (startupState 0 1000))).phase =
      Phase.red ∧
    (let s3 := step (.tick 10000)
        (step (.tick 8000) (step (.emergency 5000 .south) (startupState 0 1000)))
     s3.phase = Phase.green ∧ s3.emergencyMode = false ∧ s3.emergencyDirection = none ∧
       getActiveDirections s3 = [Direction.east] ∧ s3.phaseDuration = 15000 ∧
       s3.phaseDuration ≠ EMERGENCY_GREEN_TIME ∧
       getLight s3.currentLights .south = Color.red ∧
       getLight s3.currentLights .east = Color.green) := by
  decide

/-! ### C2 — reset behaviour -/

/-- Claim C2 (counterexample): reset during the first green, while the
initial north snapshot request is still pending.  The reset does not
cancel the pending request (`waitingForSnapshot` stays true), does not
re-arm the initializing phase (the phase stays green), and the deferred
request step then emits nothing at all — not exactly one request for
north. -/
theorem C2_counterexample :
    Reachable (step .resetTimer1 (step .reset (startupState 0 1000))) ∧
    (startupState 0 1000).waitingForSnapshot = true ∧
    (step .reset (startupState 0 1000)).waitingForSnapshot = true ∧
    (step .reset (startupState 0 1000)).phase = Phase.green ∧
    (step .resetTimer1 (step .reset (startupState 0 1000))).emitted =
      (startupState 0 1000).emitted := by
  refine ⟨?_, by decide, by decide, by decide, by decide⟩
  exact .next .resetTimer1 (.next .reset (.boot 0 1000))

/-- Claim C2 (amended): `resetSystem` clears the emergency flags, zeroes
the cycle counters, returns the rotation index to its initial −1, clears
the per-phase snapshot latch and re-arms the first-cycle flag; it leaves
the pending-request flag and the phase untouched.  The deferred request
targets north (the rotation's first approach) and is issued — exactly
one outbound call — iff no snapshot request is pending when the deferred
step fires; a pending request makes it a silent no-op. -/
theorem C2_reset_behaviour :
    (∀ s : State,
      (resetSystem s).emergencyMode = false ∧ (resetSystem s).emergencyDirection = none ∧
      (resetSystem s).totalCyclesCompleted = 0 ∧ (resetSystem s).cycleCount = 0 ∧
      (resetSystem s).currentCycleIndex = -1 ∧ (resetSystem s).snapshotTaken = false ∧
      (resetSystem s).isFirstCycle = true ∧
      (resetSystem s).waitingForSnapshot = s.waitingForSnapshot ∧
      (resetSystem s).phase = s.phase) ∧
    (∀ s : State, s.waitingForSnapshot = false →
      (step .resetTimer1 (resetSystem s)).emitted = s.emitted ++ [Direction.north] ∧
      (step .resetTimer1 (resetSystem s)).waitingForSnapshot = true) ∧
    (∀ s : State, s.waitingForSnapshot = true →
      (step .resetTimer1 (resetSystem s)).emitted = s.emitted) := by
  refine ⟨fun s => ⟨rfl, rfl, rfl, rfl, rfl, rfl, rfl, rfl, rfl⟩, fun s h => ?_, fun s h => ?_⟩
  · constructor <;>
      simp [step, resetSystem, requestSnapshotForNextDirection, getNextDirection, h,
        cycleOrderAt]
  · simp [step, resetSystem, requestSnapshotForNextDirection, h]

/-- Concrete instantiation of `C2_reset_behaviour`: from the pristine
initial state (nothing pending) the deferred reset step emits exactly one
request, for north; from the startup state (initial request pending) it
emits nothing. -/
theorem C2_reset_behaviour_witness :
    (step .resetTimer1 (resetSystem (initialState 0))).emitted = [Direction.north] ∧
    (step .resetTimer1 (resetSystem (startupState 0 1000))).emitted =
      (startupState 0 1000).emitted :=
  ⟨((C2_reset_behaviour.2.1 (initialState 0) rfl).1), C2_reset_behaviour.2.2 _ (by decide)⟩

/-! ### C3 — stale snapshot results -/

/-- Claim C3 (counterexample): a snapshot result for a request issued
*before* a reset is not discarded — there is no generation tagging.  In
the run below an east request is pending, the system is reset, and the
late result for east still overwrites the count table, the next-direction
values and the pending flag of the freshly-reset context. -/
theorem C3_counterexample :
    (let afterReset := step .reset
        (step (.tick 13000) (step (.snapshotResult .north 0 none) (startupState 0 1000)))
     Reachable afterReset ∧
       afterReset.waitingForSnapshot = true ∧
       getCount afterReset.realCarCounts .east = 0 ∧
       afterReset.nextDirectionCount = 0 ∧
       getCount (step (.snapshotResult .east 7 none) afterReset).realCarCounts .east = 7 ∧
       (step (.snapshotResult .east 7 none) afterReset).nextDirectionCount = 7 ∧
       (step (.snapshotResult .east 7 none) afterReset).waitingForSnapshot = false) := by
  refine ⟨?_, by decide, by decide, by decide, by decide, by decide, by decide⟩
  exact .next .reset (.next (.tick 13000) (.next (.snapshotResult .north 0 none) (.boot 0 1000)))

/-- Claim C3 (amended): the `snapshot_result` handler applies every
arriving resolution unconditionally — even when no request is pending at
all, and equally on a freshly-reset state — mutating the count table,
the next-direction values and the pending flag.  No generation tagging
exists. -/
theorem C3_no_generation_tagging (s : State) (d : Direction) (c : Nat) (g : Option Int)
    (h : s.waitingForSnapshot = false) :
    getCount (onSnapshotResult d c g s).realCarCounts d = c ∧
    (onSnapshotResult d c g s).nextDirectionCount = c ∧
    (onSnapshotResult d c g s).waitingForSnapshot = false ∧
    getCount (onSnapshotResult d c g (resetSystem s)).realCarCounts d = c ∧
    (onSnapshotResult d c g (resetSystem s)).nextDirectionCount = c := by
  cases d <;> simp [onSnapshotResult, resetSystem, getCount, setCount]

/-- Concrete instantiation of `C3_no_generation_tagging` at the pristine
initial state, where nothing is pending. -/
theorem C3_no_generation_tagging_witness :
    getCount (onSnapshotResult .east 7 none (initialState 0)).realCarCounts .east = 7 ∧
    (onSnapshotResult .east 7 none (initialState 0)).nextDirectionCount = 7 ∧
    (onSnapshotResult .east 7 none (initialState 0)).waitingForSnapshot = false ∧
    getCount
      (onSnapshotResult .east 7 none (resetSystem (initialState 0))).realCarCounts .east = 7 ∧
    (onSnapshotResult .east 7 none (resetSystem (initialState 0))).nextDirectionCount = 7 :=
  C3_no_generation_tagging (initialState 0) .east 7 none rfl

/-! ### C4 — predictive snapshot trigger -/

/-- Claim C4 (counterexample): at the startup state the initial north
request is still pending; on the tick where the remaining green time
enters the 3000 ms window every condition of the claim holds (green
phase, no emergency, no request issued this phase), yet no outbound
request is emitted — the pending-request guard silently suppresses it,
so it is not true that exactly one request is issued. -/
theorem C4_counterexample :
    Reachable (startupState 0 1000) ∧
    (startupState 0 1000).phase = Phase.green ∧
    (startupState 0 1000).snapshotTaken = false ∧
    (startupState 0 1000).emergencyMode = false ∧
    ((startupState 0 1000).phaseDuration - (14000 - (startupState 0 1000).cycleStartTime)) ≤
      SNAPSHOT_BEFORE_END ∧
    (step (.tick 14000) (startupState 0 1000)).emitted = (startupState 0 1000).emitted := by
  exact ⟨.boot 0 1000, by decide, by decide, by decide, by decide, by decide⟩

/-- Claim C4 (amended): on a tick in green with emergency inactive, the
per-phase latch unset, *a positive remaining time* within the
3000 ms lead window, and *no request currently pending*, exactly one
request for the next rotation approach is emitted, the latch is set, and
the phase stays green (so the latch — cleared only at the next
activation — gives at most one request per green phase absent a reset). -/
theorem C4_snapshot_trigger (s : State) (now : Int)
    (h1 : s.phase = Phase.green) (h2 : s.snapshotTaken = false)
    (h3 : s.emergencyMode = false) (h4 : s.waitingForSnapshot = false)
    (h5 : 0 < s.phaseDuration - (now - s.cycleStartTime))
    (h6 : s.phaseDuration - (now - s.cycleStartTime) ≤ SNAPSHOT_BEFORE_END) :
    (mainLoop now s).emitted = s.emitted ++ [getNextDirection s] ∧
    (mainLoop now s).snapshotTaken = true ∧
    (mainLoop now s).waitingForSnapshot = true ∧
    (mainLoop now s).phase = Phase.green := by
  unfold mainLoop requestSnapshotForNextDirection
  dsimp only
  split_ifs <;> simp_all [getNextDirection] <;> omega

/-- Concrete instantiation of `C4_snapshot_trigger` at the startup state
with the pending initial request resolved away, 2000 ms before the first
green ends. -/
theorem C4_snapshot_trigger_witness :
    (mainLoop 14000 { startupState 0 1000 with waitingForSnapshot := false }).emitted =
      ({ startupState 0 1000 with waitingForSnapshot := false } : State).emitted ++
        [getNextDirection { startupState 0 1000 with waitingForSnapshot := false }] ∧
    (mainLoop 14000 { startupState 0 1000 with waitingForSnapshot := false }).snapshotTaken =
      true :=
  ⟨(C4_snapshot_trigger _ 14000 (by decide) (by decide) (by decide) (by decide) (by decide)
      (by decide)).1,
   (C4_snapshot_trigger _ 14000 (by decide) (by decide) (by decide) (by decide) (by decide)
      (by decide)).2.1⟩

/-! ### C6 — resolution handling and green-time computation -/

/-- Modelled from the spec's words in §4.2 only, for comparison with the
source handler: `greenMs = optionalGreenMs ?? computeGreenMs(count)` — a
supplied value is kept even when it is 0. -/
def specGreenMs (optionalGreenMs : Option Int) (count : Nat) : Int :=
  optionalGreenMs.getD (calculateSmartTime count)

/-- Claim C6 (counterexample): for a result carrying the supplied green
time 0 with count 5, the source handler falls back to
`calculateSmartTime 5 = 20000` (JavaScript `||` treats 0 as absent),
whereas the claim's `optionalGreenMs ?? computeGreenMs(count)` keeps 0 —
the handler does not compute what the claim states. -/
theorem C6_counterexample :
    (onSnapshotResult .north 5 (some 0) (initialState 0)).nextDirectionGreenTime = 20000 ∧
    specGreenMs (some 0) 5 = 0 ∧
    (onSnapshotResult .north 5 (some 0) (initialState 0)).nextDirectionGreenTime ≠
      specGreenMs (some 0) 5 := by
  refine ⟨by decide, by decide, by decide⟩

theorem getCount_setCount_self (c0 : Counts) (d : Direction) (v : Nat) :
    getCount (setCount c0 d v) d = v := by
  cases d <;> rfl

theorem getCount_setCount_ne (c0 : Counts) (d d2 : Direction) (v : Nat) (h : d2 ≠ d) :
    getCount (setCount c0 d v) d2 = getCount c0 d2 := by
  cases d <;> cases d2 <;> simp_all [getCount, setCount]

theorem switchCycle_phaseDuration_of (now : Int) (s : State) (h1 : s.isFirstCycle = false)
    (h2 : s.emergencyMode = false) (h3 : s.nextDirectionGreenTime ≠ 0) :
    (switchCycle now s).phaseDuration = s.nextDirectionGreenTime := by
  unfold switchCycle
  dsimp only
  split_ifs <;> simp_all

/-- Claim C6 (amended): the handler stores `count` into the count table
for `direction` (other directions untouched), records it as the
next-direction count, clears the pending flag, and sets the green time
to the supplied value when that value is present *and nonzero*,
otherwise to the clamped formula `calculateSmartTime count`; and the
next activation that is neither the first cycle nor in emergency mode
uses exactly that stored green time as its phase duration. -/
theorem C6_resolution_applied (s : State) (d : Direction) (c : Nat) (g : Option Int) :
    getCount (onSnapshotResult d c g s).realCarCounts d = c ∧
    (∀ d2, d2 ≠ d →
      getCount (onSnapshotResult d c g s).realCarCounts d2 = getCount s.realCarCounts d2) ∧
    (onSnapshotResult d c g s).nextDirectionCount = c ∧
    (onSnapshotResult d c g s).waitingForSnapshot = false ∧
    (onSnapshotResult d c g s).nextDirectionGreenTime =
      (if g.getD 0 = 0 then min 60000 (max 10000 (5000 + (c : Int) * 3000)) else g.getD 0) ∧
    (∀ now, s.isFirstCycle = false → s.emergencyMode = false →
      (switchCycle now (onSnapshotResult d c g s)).phaseDuration =
        (onSnapshotResult d c g s).nextDirectionGreenTime) := by
  have hgt : (onSnapshotResult d c g s).nextDirectionGreenTime =
      (if g.getD 0 = 0 then min 60000 (max 10000 (5000 + (c : Int) * 3000)) else g.getD 0) := by
    cases g with
    | none => simp [onSnapshotResult, calculateSmartTime_eq]
    | some v =>
        by_cases hv : v = 0 <;> simp [onSnapshotResult, calculateSmartTime_eq, hv]
  have hlow : (10000 : Int) ≤ min 60000 (max 10000 (5000 + (c : Int) * 3000)) :=
    le_min (by norm_num) (le_max_left _ _)
  have hne : (onSnapshotResult d c g s).nextDirectionGreenTime ≠ 0 := by
    rw [hgt]; split_ifs with h0
    · omega
    · exact h0
  refine ⟨getCount_setCount_self s.realCarCounts d c,
    fun d2 hd2 => getCount_setCount_ne s.realCarCounts d d2 c hd2,
    rfl, rfl, hgt, fun now hf he => ?_⟩
  exact switchCycle_phaseDuration_of now (onSnapshotResult d c g s) hf he hne

/-- Concrete instantiation of `C6_resolution_applied`: resolving east
with count 3 and supplied green time 7000 on a non-first-cycle state
stores 3 for east, leaves north at 0, and the next activation runs
7000 ms. -/
theorem C6_resolution_applied_witness :
    getCount
      (onSnapshotResult .east 3 (some 7000)
        { initialState 0 with isFirstCycle := false }).realCarCounts .east = 3 ∧
    getCount
      (onSnapshotResult .east 3 (some 7000)
        { initialState 0 with isFirstCycle := false }).realCarCounts .north = 0 ∧
    (switchCycle 99
        (onSnapshotResult .east 3 (some 7000)
          { initialState 0 with isFirstCycle := false })).phaseDuration = 7000 := by
  have h := C6_resolution_applied { initialState 0 with isFirstCycle := false } .east 3 (some 7000)
  refine ⟨h.1, ?_, ?_⟩
  · have h2 := h.2.1 .north (by decide)
    rw [h2]; decide
  · have h6 := h.2.2.2.2.2 99 rfl rfl
    rw [h6, h.2.2.2.2.1]; decide

/-! ### C8 — at most one pending request / once per direction per green phase -/

/-- A tick either leaves the per-phase latch set or emitted nothing. -/
theorem mainLoop_emit_sets_latch (now : Int) (s : State) :
    (mainLoop now s).snapshotTaken = true ∨ (mainLoop now s).emitted = s.emitted := by
  unfold mainLoop requestSnapshotForNextDirection
  dsimp only
  split_ifs <;> simp_all [switchCycle_emitted, switchCycle_snapshotTaken]

/-- A tick clears a set per-phase latch only by performing the
allRed → green activation that begins the next green phase. -/
theorem mainLoop_latch (now : Int) (s : State) (h : s.snapshotTaken = true) :
    (mainLoop now s).snapshotTaken = true ∨
      ((mainLoop now s).phase = Phase.green ∧
        (mainLoop now s).currentCycleIndex = (s.currentCycleIndex + 1) % 4) := by
  unfold mainLoop
  dsimp only
  split_ifs <;>
    simp_all [switchCycle_snapshotTaken, switchCycle_phase, switchCycle_currentCycleIndex]

/-- Claim C8 (counterexample): two outbound snapshot requests for the
*same* direction, north, in one and the same green phase.  A reset during
the first green returns the rotation index to −1 (making north the next
direction) and clears the per-phase latch while the phase silently stays
green; the tick at 13000 then emits north.  After that request resolves,
a second reset clears the latch again, and the tick at 13500 emits north
a second time.  Every intermediate state is in phase green with the phase
clock still at its activation value 1000 — no new green phase began — so
"a request for any direction is issued at most once per green phase"
fails for north. -/
theorem C8_counterexample :
    (let u1 := step (.snapshotResult .north 0 none) (startupState 0 1000)
     let u2 := step .reset u1
     let u3 := step (.tick 13000) u2
     let u4 := step (.snapshotResult .north 2 none) u3
     let u5 := step .reset u4
     let u6 := step (.tick 13500) u5
     Reachable u6 ∧
       (startupState 0 1000).emitted = [Direction.north] ∧
       (startupState 0 1000).cycleStartTime = 1000 ∧
       u1.phase = Phase.green ∧ u2.phase = Phase.green ∧ u3.phase = Phase.green ∧
       u4.phase = Phase.green ∧ u5.phase = Phase.green ∧ u6.phase = Phase.green ∧
       u1.cycleStartTime = 1000 ∧ u2.cycleStartTime = 1000 ∧ u3.cycleStartTime = 1000 ∧
       u4.cycleStartTime = 1000 ∧ u5.cycleStartTime = 1000 ∧ u6.cycleStartTime = 1000 ∧
       u3.emitted = [Direction.north, Direction.north] ∧
       u6.emitted = [Direction.north, Direction.north, Direction.north]) := by
  refine ⟨?_, by decide⟩
  exact .next (.tick 13500) (.next .reset (.next (.snapshotResult .north 2 none)
    (.next (.tick 13000) (.next .reset
      (.next (.snapshotResult .north 0 none) (.boot 0 1000))))))

/-- Claim C8 (amended): at most one snapshot request is pending at any
time (the pending state is one system-wide flag); invoking the request
operation while a request is pending is a silent no-op producing no
outbound call and no state change; and a request for any direction is
issued at most once per green phase as long as no reset intervenes: a
tick emits at most one request (for the next rotation approach), an
emission sets the per-phase latch, a set latch suppresses every further
emission, and a tick clears a set latch only by the activation that
begins the next green phase — among all other events only a reset
clears it, while the phase silently continues, after which the same
direction can be requested a second time within the same green phase
(see the counterexample). -/
theorem C8_request_discipline :
    (∀ s : State, s.waitingForSnapshot = true → requestSnapshotForNextDirection s = s) ∧
    (∀ (s : State) (now : Int), s.snapshotTaken = true →
      (mainLoop now s).emitted = s.emitted) ∧
    (∀ (s : State) (now : Int),
      (mainLoop now s).emitted = s.emitted ∨
        (mainLoop now s).emitted = s.emitted ++ [getNextDirection s]) ∧
    (∀ (s : State) (now : Int), (mainLoop now s).emitted ≠ s.emitted →
      (mainLoop now s).snapshotTaken = true) ∧
    (∀ (s : State) (e : Event), s.snapshotTaken = true → (step e s).snapshotTaken = false →
      e = Event.reset ∨
        ((step e s).phase = Phase.green ∧
          (step e s).currentCycleIndex = (s.currentCycleIndex + 1) % 4)) := by
  refine ⟨fun s h => by unfold requestSnapshotForNextDirection; rw [if_pos h],
    fun s now h => mainLoop_emitted_of_taken now s h,
    fun s now => mainLoop_emitted_cases now s,
    fun s now h => (mainLoop_emit_sets_latch now s).resolve_right h,
    fun s e h1 h2 => ?_⟩
  cases e with
  | tick now =>
      rcases mainLoop_latch now s h1 with h | h
      · rw [show step (Event.tick now) s = mainLoop now s from rfl, h] at h2
        exact absurd h2 (by decide)
      · exact Or.inr h
  | snapshotResult d c g => simp [step, onSnapshotResult, h1] at h2
  | trafficUpdate n so e w => simp [step, onTrafficUpdate, h1] at h2
  | emergency now d => simp [step, emergencyOverride, h1] at h2
  | reset => exact Or.inl rfl
  | resetTimer1 =>
      dsimp only [step] at h2
      by_cases hs : s.resetStage = 1
      · rw [if_pos hs] at h2
        rw [show ({ requestSnapshotForNextDirection s with resetStage := 2 } : State).snapshotTaken
            = s.snapshotTaken from request_snapshotTaken s, h1] at h2
        exact absurd h2 (by decide)
      · rw [if_neg hs, h1] at h2
        exact absurd h2 (by decide)
  | resetTimer2 now =>
      dsimp only [step] at h2 ⊢
      by_cases hs : s.resetStage = 2
      · rw [if_pos hs]
        exact Or.inr ⟨switchCycle_phase now s, switchCycle_currentCycleIndex now s⟩
      · rw [if_neg hs] at h2
        rw [h1] at h2
        exact absurd h2 (by decide)

/-- Concrete instantiation of `C8_request_discipline`: at the startup
state the initial request is pending and a further request call changes
nothing; with the latch set, a tick emits nothing; and a reset on a
latch-set green state is the only non-activation event that clears the
latch. -/
theorem C8_request_discipline_witness :
    requestSnapshotForNextDirection (startupState 0 1000) = startupState 0 1000 ∧
    (mainLoop 14000 { startupState 0 1000 with snapshotTaken := true }).emitted =
      [Direction.north] ∧
    (Event.reset = Event.reset ∨
      ((step Event.reset { startupState 0 1000 with snapshotTaken := true }).phase =
          Phase.green ∧
        (step Event.reset { startupState 0 1000 with snapshotTaken := true }).currentCycleIndex =
          (({ startupState 0 1000 with snapshotTaken := true } : State).currentCycleIndex + 1)
            % 4)) := by
  refine ⟨C8_request_discipline.1 _ (by decide), ?_, ?_⟩
  · have h := C8_request_discipline.2.1 { startupState 0 1000 with snapshotTaken := true } 14000
      rfl
    rw [h]; decide
  · exact C8_request_discipline.2.2.2.2 { startupState 0 1000 with snapshotTaken := true }
      Event.reset rfl (by decide)
